import Mathlib

/-!
Verification of the core data pipeline of src/app.py (company digital
transformation index dashboard): the Loader/Consolidator (load_full_data,
lines 134-166), the Index Calculator, Policy A
(calculate_annual_percentile_index, lines 39-72), and the report trend
logic (generate_company_report, lines 91-98).

The pandas DataFrame is shallowly embedded as a list of rows over the nine
retained columns (RETAIN_COLUMNS, lines 18-28), together with a record of
which columns are present (pandas raises KeyError when a selected column is
absent).  Numeric cells are modelled as exact rationals; Python round(x, 2)
is modelled as exact rounding to the nearest hundredth (the claims proved
below do not depend on binary floating point representation or on the tie
direction of rounding).
-/

namespace CompanyDigitalIndex

/-- A cell value of the consolidated table: pandas cells in an object
column can hold a string, a number (for example after fillna(0)), or NaN. -/
inductive Cell : Type where
  | num (q : ℚ)
  | str (s : String)
  | na
deriving Repr, DecidableEq

/-- Which of the eight data columns of RETAIN_COLUMNS (besides 年份, which
the loader always creates at line 149) are present in a frame or sheet.
srcIndex is the 数字化转型综合指数 column, ai .. digitalTech are the five
keyword frequency columns 人工智能/大数据/云计算/区块链/数字技术运用词频数. -/
structure ColsPresent : Type where
  stockCode : Bool
  companyName : Bool
  srcIndex : Bool
  ai : Bool
  bigData : Bool
  cloud : Bool
  blockchain : Bool
  digitalTech : Bool
deriving Repr, DecidableEq

/-- Column union, as produced by pd.concat at line 157: the concatenated
frame has a column when at least one sheet has it. -/
def ColsPresent.union (a b : ColsPresent) : ColsPresent :=
  ⟨a.stockCode || b.stockCode, a.companyName || b.companyName,
   a.srcIndex || b.srcIndex, a.ai || b.ai, a.bigData || b.bigData,
   a.cloud || b.cloud, a.blockchain || b.blockchain,
   a.digitalTech || b.digitalTech⟩

/-- No columns (the columns of pd.DataFrame()). -/
def ColsPresent.noCols : ColsPresent :=
  ⟨false, false, false, false, false, false, false, false⟩

/-- One row of the consolidated table, after fillna(0) at line 158: the
numeric cells of present columns are rationals (absent or NaN cells became
0), identifying columns keep cell values (a stock code filled by fillna is
the number 0, not a string). transformationIndex is 数字化转型综合指数. -/
structure Row : Type where
  stockCode : Cell
  companyName : Cell
  year : String
  transformationIndex : ℚ
  ai : ℚ
  bigData : ℚ
  cloud : ℚ
  blockchain : ℚ
  digitalTech : ℚ
deriving Repr, DecidableEq

/-- A pandas DataFrame of the pipeline: its present data columns, the
temporary column 年度总词频数 when present (line 50 creates it, line 70
drops it), and its rows. -/
structure Frame : Type where
  cols : ColsPresent
  tempCol : Option (List ℚ)
  rows : List Row
deriving Repr, DecidableEq

/-- The empty DataFrame pd.DataFrame() returned on load failure. -/
def emptyFrame : Frame := ⟨ColsPresent.noCols, none, []⟩

/-- Python round(x, 2) (lines 60, 84, 89, 95): rounding to the nearest
hundredth, modelled exactly on rationals. -/
def round2 (q : ℚ) : ℚ := ((round (q * 100) : ℤ) : ℚ) / 100

/-- Line 50: 年度总词频数, the row sum of the five keyword frequency
columns. -/
def yearTotal (r : Row) : ℚ :=
  r.ai + r.bigData + r.cloud + r.blockchain + r.digitalTech

/-- The pandas Series.max() of a list of values (line 54).  Groups passed
to the group function are never empty; the value on [] is arbitrary. -/
def seriesMax : List ℚ → ℚ
  | [] => 0
  | x :: xs => xs.foldl max x

/-- Line 41-47 and the selection df[word_freq_cols] at line 50: the
selection succeeds exactly when all five keyword frequency columns are
present (pandas raises KeyError when any requested label is missing). -/
def wordFreqColsPresent (c : ColsPresent) : Bool :=
  c.ai && c.bigData && c.cloud && c.blockchain && c.digitalTech

/-- Lines 54-63, the value of 数字化转型综合指数 for one row of a year
group whose maximum 年度总词频数 is year_max_total: the zero branch or the
normalization (line 60), then clip(lower=0, upper=100) (line 62), then the
zero-frequency override (line 63). -/
def yearIndexValue (year_max_total : ℚ) (r : Row) : ℚ :=
  let idx := if year_max_total = 0 then 0
             else round2 (yearTotal r / year_max_total * 100)
  let idx := min (max idx 0) 100
  if yearTotal r = 0 then 0 else idx

/-- Lines 53-64: the group function _calc_year_index applied to one year
group.  It recomputes every row of the group with the group maximum. -/
def _calc_year_index (year_df : List Row) : List Row :=
  year_df.map fun r =>
    { r with transformationIndex :=
        yearIndexValue (seriesMax (year_df.map yearTotal)) r }

/-- The maximum 年度总词频数 of the year group of a given year inside a
row list (line 54, for the group produced by groupby at line 67). -/
def yearMaxOf (rows : List Row) (y : String) : ℚ :=
  seriesMax ((rows.filter fun r => r.year == y).map yearTotal)

/-- One row of the output of the groupby apply at line 67: the row with
数字化转型综合指数 recomputed against the maximum of its year group. -/
def applyIndexRow (allRows : List Row) (r : Row) : Row :=
  { r with transformationIndex := yearIndexValue (yearMaxOf allRows r.year) r }

/-- The rows of df.groupby(年份, group_keys=False).apply(_calc_year_index)
at line 67.  The group function returns frames indexed like its input, so
pandas reindexes the concatenation back to the original row order
(_concat_objects transform path); hence the result is the original row
sequence with each row recomputed against its own year group. -/
def calcRows (rows : List Row) : List Row :=
  rows.map (applyIndexRow rows)

/-- The columns of the calculator output: 数字化转型综合指数 is created by
the group-wise assignments (lines 57, 60) as soon as at least one group
exists; the temporary column is dropped at line 70. -/
def calcOutCols (f : Frame) : ColsPresent :=
  { f.cols with srcIndex := f.cols.srcIndex || !f.rows.isEmpty }

/-- The exception message produced by the column selection
df[word_freq_cols] when a keyword frequency column is missing (it stands
for the pandas KeyError text, whose exact wording the claims do not use). -/
def keyErrorMsg : String := "KeyError: word_freq_cols not in columns"

/-- Lines 39-72: calculate_annual_percentile_index.  If any keyword
frequency column is absent the selection at line 50 raises KeyError;
otherwise every row receives the Policy A per-year index, and the frame
returned at line 72 carries no temporary column (dropped at line 70). -/
def calculate_annual_percentile_index (f : Frame) : Except String Frame :=
  if wordFreqColsPresent f.cols then
    .ok ⟨calcOutCols f, none, calcRows f.rows⟩
  else
    .error keyErrorMsg

/-- Python str.zfill on a character list: pad on the left with the digit
zero up to the requested width, keeping a leading sign in front of the
padding; a string at least as long as the width is returned unchanged. -/
def zfillChars (width : Nat) (cs : List Char) : List Char :=
  if width ≤ cs.length then cs
  else
    match cs with
    | c :: rest =>
        if c = '+' ∨ c = '-' then
          c :: (List.replicate (width - cs.length) '0' ++ rest)
        else List.replicate (width - cs.length) '0' ++ cs
    | [] => List.replicate width '0'

/-- Python str.zfill(width) on strings. -/
def zfill (width : Nat) (s : String) : String := ⟨zfillChars width s.data⟩

/-- Line 154: the stock code normalization astype(str).str.zfill(6),
applied to the string form of the cell (astype(str) renders a float-typed
code 1.0 as the string 1.0, an integer as its digits, a text cell as
itself, and NaN as the string nan; no step strips a trailing .0). -/
def fix_stock_code (s : String) : String := zfill 6 s

/-- One row of a source worksheet, over the columns of RETAIN_COLUMNS that
the sheet may carry.  stockCode holds the value after astype(str) (see
fix_stock_code); none stands for a NaN cell; fields of columns the sheet
does not have are ignored. -/
structure SheetRow : Type where
  stockCode : String
  companyName : Option String
  srcIndex : Option ℚ
  ai : Option ℚ
  bigData : Option ℚ
  cloud : Option ℚ
  blockchain : Option ℚ
  digitalTech : Option ℚ
deriving Repr, DecidableEq

/-- One worksheet of the workbook: its name, which retained columns it
has, and its rows. -/
structure Sheet : Type where
  name : String
  cols : ColsPresent
  rows : List SheetRow
deriving Repr, DecidableEq

/-- Python str.isdigit for sheet names (line 141): nonempty and made of
digits only. -/
def isDigitName (s : String) : Bool := !s.isEmpty && s.data.all Char.isDigit

/-- Lines 148-155 together with the later concat and fillna(0) (lines
157-158), restricted to one sheet: 年份 is set to the sheet name, only
columns of RETAIN_COLUMNS are kept, the stock code is normalized when its
column is present, and a cell that is NaN or belongs to a column this
sheet lacks (but another sheet has) ends up as 0 after fillna. -/
def processSheet (s : Sheet) : List Row :=
  s.rows.map fun r =>
    { stockCode :=
        if s.cols.stockCode then Cell.str (fix_stock_code r.stockCode)
        else Cell.num 0
      companyName :=
        if s.cols.companyName then
          match r.companyName with
          | some n => Cell.str n
          | none => Cell.num 0
        else Cell.num 0
      year := s.name
      transformationIndex := if s.cols.srcIndex then r.srcIndex.getD 0 else 0
      ai := if s.cols.ai then r.ai.getD 0 else 0
      bigData := if s.cols.bigData then r.bigData.getD 0 else 0
      cloud := if s.cols.cloud then r.cloud.getD 0 else 0
      blockchain := if s.cols.blockchain then r.blockchain.getD 0 else 0
      digitalTech := if s.cols.digitalTech then r.digitalTech.getD 0 else 0 }

/-- The columns of the concatenated frame: the union over the selected
sheets (pd.concat at line 157). -/
def unionCols (sheets : List Sheet) : ColsPresent :=
  (sheets.map Sheet.cols).foldl ColsPresent.union ColsPresent.noCols

/-- The error message of line 143 (no digit-named sheet). -/
def noDigitSheetMsg : String := "❌ Excel中无纯数字名称的工作表（如1999）"

/-- The error message of line 165 (an exception was caught), applied to
the text of the exception. -/
def loadFailMsg (e : String) : String := "❌ 读取数据失败：" ++ e

/-- The outcome of load_full_data: the returned table (pd.DataFrame() on
failure) and the st.error messages issued during the load. -/
structure LoadResult : Type where
  table : Frame
  messages : List String
deriving Repr, DecidableEq

/-- Lines 134-166: load_full_data, from the point where the workbook is
open (the missing-file branch at lines 136-138 and the byte-level Excel
reading are I/O outside this model; a workbook is a list of sheets).
Digit-named sheets are selected (line 141), each is processed and they are
concatenated (lines 146-158), then the index is recomputed (line 161); a
KeyError from the calculator is caught by the except at line 164 and turns
the result into an empty frame with an error message. -/
def load_full_data (workbook : List Sheet) : LoadResult :=
  let sheets := workbook.filter fun s => isDigitName s.name
  if sheets.isEmpty then ⟨emptyFrame, [noDigitSheetMsg]⟩
  else
    let full : Frame := ⟨unionCols sheets, none, (sheets.map processSheet).flatten⟩
    match calculate_annual_percentile_index full with
    | .ok t => ⟨t, []⟩
    | .error e => ⟨emptyFrame, [loadFailMsg e]⟩

/-- The ambient runtime state an execution could read: a wall clock.
datetime.now() is read only by the report text (line 107) and the download
file names; lines 39-72 and 134-166 read no clock, counter or randomness. -/
structure Env : Type where
  now : Nat
deriving Repr, DecidableEq

/-- load_full_data as run in an ambient environment: the loader and the
calculator never read the environment (no datetime.now, random or mutable
counter occurs in lines 39-72 and 134-166 of src/app.py). -/
def load_full_data_env (_e : Env) (workbook : List Sheet) : LoadResult :=
  load_full_data workbook

/-- The state of the argument DataFrame object after the call returns:
line 50 assigns the temporary column 年度总词频数 on the caller's object
in place; lines 67 and 70 rebind the local name df to new frames and do
not affect the argument.  When the selection at line 50 raises, the
assignment never happens and the argument is unchanged. -/
def calculate_arg_after (f : Frame) : Frame :=
  if wordFreqColsPresent f.cols then
    { f with tempCol := some (f.rows.map yearTotal) }
  else f

/-- The trend field of generate_company_report (lines 91-98), with the
report strings of lines 96-98 and 80 abstracted into constructors:
noData is 无数据, zeroBase is 数据基数为0，无法计算趋势, up and down carry
the growth rate of the 上升/下降 strings, flat is 平稳. -/
inductive Trend : Type where
  | noData
  | zeroBase
  | up (rate : ℚ)
  | down (rate : ℚ)
  | flat
deriving Repr, DecidableEq

/-- Lexicographic code point comparison of character lists: the order
Python uses for strings (and the order of the String instances). -/
def pyStrLtChars : List Char → List Char → Bool
  | [], [] => false
  | [], _ :: _ => true
  | _ :: _, [] => false
  | a :: as, b :: bs =>
      if a < b then true else if b < a then false else pyStrLtChars as bs

/-- Python string comparison a < b. -/
def pyStrLt (a b : String) : Bool := pyStrLtChars a.data b.data

/-- Python min over a nonempty list of strings (lexicographic); the value
on [] is arbitrary (the callers guard emptiness). -/
def pyMinStr : List String → String
  | [] => ""
  | y :: ys => ys.foldl (fun a b => if pyStrLt b a then b else a) y

/-- Python max over a nonempty list of strings (lexicographic); the value
on [] is arbitrary. -/
def pyMaxStr : List String → String
  | [] => ""
  | y :: ys => ys.foldl (fun a b => if pyStrLt a b then b else a) y

/-- Line 77: sorted(company_data[年份].unique()); only its length and its
minimum and maximum matter below, so the order is left as first
occurrence. -/
def available_years (d : List Row) : List String := (d.map Row.year).dedup

/-- Lines 92-93: the index of the first available year, 0 when the filter
is empty (iloc[0] of the first match otherwise). -/
def firstIndexOf (d : List Row) : ℚ :=
  match d.filter fun r => r.year == pyMinStr (available_years d) with
  | [] => 0
  | r :: _ => r.transformationIndex

/-- Lines 87-89: the rounded index of the latest available year, 0 when
the filter is empty. -/
def latestIndexOf (d : List Row) : ℚ :=
  match d.filter fun r => r.year == pyMaxStr (available_years d) with
  | [] => 0
  | r :: _ => round2 r.transformationIndex

/-- Lines 91-98: the trend of a company's records.  The growth rate
divides by the first year's index only inside the branch that has checked
it is nonzero; with fewer than two available years, or a zero base, no
division happens and the no-data or zero-base text is produced. -/
def reportTrend (d : List Row) : Trend :=
  if 2 ≤ (available_years d).length then
    let first_index := firstIndexOf d
    if first_index ≠ 0 then
      let growth_rate := round2 ((latestIndexOf d - first_index) / first_index * 100)
      if growth_rate > 0 then .up growth_rate
      else if growth_rate < 0 then .down growth_rate
      else .flat
    else .zeroBase
  else .noData

/-! Supporting lemmas. -/

lemma le_foldl_max (l : List ℚ) (a : ℚ) : a ≤ l.foldl max a := by
  induction l generalizing a with
  | nil => exact le_refl a
  | cons x xs ih => exact le_trans (le_max_left a x) (ih (max a x))

lemma mem_le_foldl_max (l : List ℚ) (a x : ℚ) (hx : x ∈ l) :
    x ≤ l.foldl max a := by
  induction l generalizing a with
  | nil => cases hx
  | cons y ys ih =>
      rcases List.mem_cons.mp hx with h | h
      · subst h
        exact le_trans (le_max_right a x) (le_foldl_max ys (max a x))
      · exact ih (max a y) h

lemma foldl_max_mem (l : List ℚ) (a : ℚ) :
    l.foldl max a = a ∨ l.foldl max a ∈ l := by
  induction l generalizing a with
  | nil => exact Or.inl rfl
  | cons x xs ih =>
      have hfold : (x :: xs).foldl max a = xs.foldl max (max a x) := rfl
      rcases ih (max a x) with h | h
      · rcases le_total a x with hax | hxa
        · right
          rw [hfold, h, max_eq_right hax]
          exact List.mem_cons_self x xs
        · left
          rw [hfold, h, max_eq_left hxa]
      · right
        rw [hfold]
        exact List.mem_cons_of_mem x h

lemma mem_le_seriesMax (l : List ℚ) (x : ℚ) (hx : x ∈ l) : x ≤ seriesMax l := by
  cases l with
  | nil => cases hx
  | cons y ys =>
      rcases List.mem_cons.mp hx with h | h
      · subst h
        exact le_foldl_max ys x
      · exact mem_le_foldl_max ys y x h

lemma seriesMax_mem (l : List ℚ) (hl : l ≠ []) : seriesMax l ∈ l := by
  cases l with
  | nil => exact absurd rfl hl
  | cons y ys =>
      rcases foldl_max_mem ys y with h | h
      · show ys.foldl max y ∈ y :: ys
        rw [h]
        exact List.mem_cons_self y ys
      · exact List.mem_cons_of_mem y h

lemma seriesMax_of_all_zero (l : List ℚ) (h : ∀ x ∈ l, x = 0) :
    seriesMax l = 0 := by
  cases l with
  | nil => rfl
  | cons y ys =>
      have := seriesMax_mem (y :: ys) (by simp)
      exact h _ this

lemma seriesMax_eq_of_mem (l : List ℚ) (b : ℚ) (hb : b ∈ l)
    (hle : ∀ x ∈ l, x ≤ b) : seriesMax l = b := by
  have h1 : seriesMax l ≤ b := hle _ (seriesMax_mem l (List.ne_nil_of_mem hb))
  have h2 : b ≤ seriesMax l := mem_le_seriesMax l b hb
  exact le_antisymm h1 h2

lemma round2_hundred : round2 100 = 100 := by
  unfold round2
  norm_num [round_eq]

lemma yearIndexValue_nonneg (m : ℚ) (r : Row) : 0 ≤ yearIndexValue m r := by
  unfold yearIndexValue
  by_cases h : yearTotal r = 0
  · simp [h]
  · simp only [h, if_false]
    exact le_min (le_max_right _ 0) (by norm_num)

lemma yearIndexValue_le_100 (m : ℚ) (r : Row) : yearIndexValue m r ≤ 100 := by
  unfold yearIndexValue
  by_cases h : yearTotal r = 0
  · simp [h]
  · simp only [h, if_false]
    exact min_le_right _ _

lemma yearIndexValue_of_total_zero (m : ℚ) (r : Row) (h : yearTotal r = 0) :
    yearIndexValue m r = 0 := by
  unfold yearIndexValue
  simp [h]

lemma yearIndexValue_leader (m : ℚ) (r : Row) (hm : m ≠ 0)
    (ht : yearTotal r = m) : yearIndexValue m r = 100 := by
  unfold yearIndexValue
  have hz : yearTotal r ≠ 0 := ht ▸ hm
  simp only [hm, if_false, hz, ht, div_self hm, one_mul, round2_hundred]
  norm_num

lemma applyIndexRow_year (rows : List Row) (r : Row) :
    (applyIndexRow rows r).year = r.year := rfl

lemma yearTotal_applyIndexRow (rows : List Row) (r : Row) :
    yearTotal (applyIndexRow rows r) = yearTotal r := rfl

lemma applyIndexRow_value (rows : List Row) (r : Row) :
    (applyIndexRow rows r).transformationIndex =
      yearIndexValue (yearMaxOf rows r.year) r := rfl

lemma filter_year_map (g : Row → Row) (hg : ∀ r, (g r).year = r.year)
    (y : String) (l : List Row) :
    (l.map g).filter (fun r => r.year == y) =
      (l.filter fun r => r.year == y).map g := by
  induction l with
  | nil => rfl
  | cons r rs ih =>
      by_cases h : r.year = y
      · simp [List.filter_cons, hg, h, ih]
      · simp [List.filter_cons, hg, h, ih]

lemma calcRows_filter (rows : List Row) (y : String) :
    (calcRows rows).filter (fun r => r.year == y) =
      (rows.filter fun r => r.year == y).map (applyIndexRow rows) :=
  filter_year_map (applyIndexRow rows) (applyIndexRow_year rows) y rows

lemma mem_year_filter (rows : List Row) (y : String) (r : Row)
    (hr : r ∈ rows) (hy : r.year = y) :
    r ∈ rows.filter fun s => s.year == y :=
  List.mem_filter.mpr ⟨hr, by simp [hy]⟩

lemma calc_ok_iff (f f' : Frame) :
    calculate_annual_percentile_index f = .ok f' ↔
      wordFreqColsPresent f.cols = true ∧
        f' = ⟨calcOutCols f, none, calcRows f.rows⟩ := by
  unfold calculate_annual_percentile_index
  by_cases h : wordFreqColsPresent f.cols
  · simp [h, eq_comm]
  · simp [h]

/-- Rows related by everything except 数字化转型综合指数: used to state
that the calculator only touches that column. -/
def Row.eqExceptIdx (a b : Row) : Prop :=
  a.stockCode = b.stockCode ∧ a.companyName = b.companyName ∧
  a.year = b.year ∧ a.ai = b.ai ∧ a.bigData = b.bigData ∧
  a.cloud = b.cloud ∧ a.blockchain = b.blockchain ∧
  a.digitalTech = b.digitalTech

lemma forall₂_self_map {R : Row → Row → Prop} (g : Row → Row)
    (hR : ∀ a, R a (g a)) (l : List Row) : List.Forall₂ R l (l.map g) := by
  induction l with
  | nil => exact List.Forall₂.nil
  | cons a as ih => exact List.Forall₂.cons (hR a) ih

lemma eqExceptIdx_applyIndexRow (rows : List Row) (r : Row) :
    Row.eqExceptIdx r (applyIndexRow rows r) :=
  ⟨rfl, rfl, rfl, rfl, rfl, rfl, rfl, rfl⟩

/-! Concrete data used by witnesses and counterexamples. -/

/-- All retained columns present. -/
def allColsEx : ColsPresent :=
  ⟨true, true, true, true, true, true, true, true⟩

/-- A 2020 record with one keyword occurrence (its source index 5 will be
overwritten). -/
def rowA : Row := ⟨Cell.str "000001", Cell.str "A", "2020", 5, 1, 0, 0, 0, 0⟩

/-- A 2020 record with all-zero keyword frequencies and a stale source
index 7. -/
def rowB : Row := ⟨Cell.str "000002", Cell.str "B", "2020", 7, 0, 0, 0, 0, 0⟩

/-- rowA after Policy A: the 2020 leader scores 100. -/
def rowA' : Row := ⟨Cell.str "000001", Cell.str "A", "2020", 100, 1, 0, 0, 0, 0⟩

/-- rowB after Policy A: all-zero frequencies force index 0. -/
def rowB' : Row := ⟨Cell.str "000002", Cell.str "B", "2020", 0, 0, 0, 0, 0, 0⟩

/-- A consolidated two-row frame. -/
def frameEx : Frame := ⟨allColsEx, none, [rowA, rowB]⟩

/-- The calculator output for frameEx. -/
def frameEx' : Frame := ⟨allColsEx, none, [rowA', rowB']⟩

/-- A frame whose single 2020 record has all-zero frequencies. -/
def frameZ : Frame := ⟨allColsEx, none, [rowB]⟩

/-- The calculator output for frameZ. -/
def frameZ' : Frame := ⟨allColsEx, none, [rowB']⟩

lemma calc_frameEx :
    calculate_annual_percentile_index frameEx = .ok frameEx' := by
  simp [calculate_annual_percentile_index, wordFreqColsPresent, frameEx,
    frameEx', allColsEx, calcOutCols, calcRows, applyIndexRow, yearMaxOf,
    yearIndexValue, seriesMax, yearTotal, rowA, rowB, rowA', rowB',
    round2_hundred]

lemma calc_frameZ :
    calculate_annual_percentile_index frameZ = .ok frameZ' := by
  simp [calculate_annual_percentile_index, wordFreqColsPresent, frameZ,
    frameZ', allColsEx, calcOutCols, calcRows, applyIndexRow, yearMaxOf,
    yearIndexValue, seriesMax, yearTotal, rowB, rowB', round2_hundred]

lemma rowA_mem : rowA ∈ frameEx.rows := by simp [frameEx]

lemma rowB_total : yearTotal rowB = 0 := by norm_num [yearTotal, rowB]

/-! Claim theorems. -/

/-- C1: for every record of the consolidated table after the Policy A
calculator runs, the 数字化转型综合指数 lies in the closed interval
[0, 100]. -/
theorem transformationIndex_in_bounds (f f' : Frame)
    (h : calculate_annual_percentile_index f = .ok f') :
    ∀ r ∈ f'.rows, 0 ≤ r.transformationIndex ∧ r.transformationIndex ≤ 100 := by
  obtain ⟨-, rfl⟩ := (calc_ok_iff f f').mp h
  intro r hr
  obtain ⟨r₀, -, rfl⟩ := List.mem_map.mp hr
  exact ⟨yearIndexValue_nonneg _ _, yearIndexValue_le_100 _ _⟩

/-- Witness for C1 at a concrete two-row frame. -/
theorem transformationIndex_in_bounds_witness :
    0 ≤ rowA'.transformationIndex ∧ rowA'.transformationIndex ≤ 100 :=
  transformationIndex_in_bounds frameEx frameEx' calc_frameEx rowA'
    (by simp [frameEx'])

/-- C3: under Policy A every record whose keyword frequencies sum to 0
receives index 0, by the unconditional override of line 63 (it runs after
the formula and the clip, in both branches). -/
theorem zero_frequency_forces_zero (f f' : Frame)
    (h : calculate_annual_percentile_index f = .ok f') :
    ∀ r ∈ f'.rows, yearTotal r = 0 → r.transformationIndex = 0 := by
  obtain ⟨-, rfl⟩ := (calc_ok_iff f f').mp h
  intro r hr hz
  obtain ⟨r₀, -, rfl⟩ := List.mem_map.mp hr
  rw [yearTotal_applyIndexRow] at hz
  exact yearIndexValue_of_total_zero _ _ hz

/-- Witness for C3: the all-zero 2020 record of frameEx gets index 0. -/
theorem zero_frequency_forces_zero_witness : rowB'.transformationIndex = 0 :=
  zero_frequency_forces_zero frameEx frameEx' calc_frameEx rowB'
    (by simp [frameEx']) (by norm_num [yearTotal, rowB'])

/-- C4: in a year group where every record's total frequency is 0, the
group maximum is 0, so the explicit zero branch of line 56 is taken (the
normalization division of line 60 is in the other branch and is not
evaluated), and every record of the group gets index 0. -/
theorem all_zero_year_group (f f' : Frame)
    (h : calculate_annual_percentile_index f = .ok f') (y : String)
    (hz : ∀ r ∈ f.rows, r.year = y → yearTotal r = 0) :
    yearMaxOf f.rows y = 0 ∧
      ∀ r ∈ f'.rows, r.year = y → r.transformationIndex = 0 := by
  obtain ⟨-, rfl⟩ := (calc_ok_iff f f').mp h
  have hmax : yearMaxOf f.rows y = 0 := by
    apply seriesMax_of_all_zero
    intro x hx
    obtain ⟨r, hr, rfl⟩ := List.mem_map.mp hx
    obtain ⟨hrmem, hpy⟩ := List.mem_filter.mp hr
    exact hz r hrmem (by simpa using hpy)
  refine ⟨hmax, ?_⟩
  intro r hr hy
  obtain ⟨r₀, hr₀, rfl⟩ := List.mem_map.mp hr
  exact yearIndexValue_of_total_zero _ _ (hz r₀ hr₀ hy)

/-- Witness for C4 at a frame whose whole 2020 group has zero totals. -/
theorem all_zero_year_group_witness :
    yearMaxOf frameZ.rows "2020" = 0 ∧ rowB'.transformationIndex = 0 :=
  ⟨(all_zero_year_group frameZ frameZ' calc_frameZ "2020"
      (by intro r hr hy; simp [frameZ] at hr; simp [hr, rowB_total])).1,
   (all_zero_year_group frameZ frameZ' calc_frameZ "2020"
      (by intro r hr hy; simp [frameZ] at hr; simp [hr, rowB_total])).2 rowB'
     (by simp [frameZ']) rfl⟩

/-- C2: under Policy A, in every year group holding a record with nonzero
total keyword frequency, the maximum 数字化转型综合指数 of the group is
exactly 100 (hence within any rounding tolerance): the record attaining
the group maximum total gets round(max/max*100, 2) = 100, the clip keeps
it, and every other record is clipped to at most 100.  Keyword frequency
counts are nonnegative, as the data model states. -/
theorem per_year_leader (f f' : Frame)
    (h : calculate_annual_percentile_index f = .ok f')
    (hnn : ∀ r ∈ f.rows, 0 ≤ r.ai ∧ 0 ≤ r.bigData ∧ 0 ≤ r.cloud ∧
      0 ≤ r.blockchain ∧ 0 ≤ r.digitalTech)
    (y : String) (r₀ : Row) (hr₀ : r₀ ∈ f.rows) (hy : r₀.year = y)
    (hnz : yearTotal r₀ ≠ 0) :
    seriesMax ((f'.rows.filter fun r => r.year == y).map
      Row.transformationIndex) = 100 := by
  obtain ⟨-, rfl⟩ := (calc_ok_iff f f').mp h
  have hfil : (calcRows f.rows).filter (fun r => r.year == y) =
      (f.rows.filter fun r => r.year == y).map (applyIndexRow f.rows) :=
    calcRows_filter f.rows y
  have hidx : ((f.rows.filter fun r => r.year == y).map
        (applyIndexRow f.rows)).map Row.transformationIndex =
      (f.rows.filter fun r => r.year == y).map
        (fun r => yearIndexValue (yearMaxOf f.rows y) r) := by
    rw [List.map_map]
    refine List.map_congr_left ?_
    intro r hr
    have hry : r.year = y := by
      have := (List.mem_filter.mp hr).2
      simpa using this
    show (applyIndexRow f.rows r).transformationIndex =
      yearIndexValue (yearMaxOf f.rows y) r
    rw [applyIndexRow_value, hry]
  have htot : ∀ r ∈ f.rows, 0 ≤ yearTotal r := by
    intro r hr
    obtain ⟨h1, h2, h3, h4, h5⟩ := hnn r hr
    unfold yearTotal
    have := add_nonneg (add_nonneg (add_nonneg (add_nonneg h1 h2) h3) h4) h5
    exact this
  have hr₀g : r₀ ∈ f.rows.filter fun r => r.year == y :=
    mem_year_filter f.rows y r₀ hr₀ hy
  have hm_ge : yearTotal r₀ ≤ yearMaxOf f.rows y :=
    mem_le_seriesMax _ _ (List.mem_map_of_mem yearTotal hr₀g)
  have hmpos : 0 < yearMaxOf f.rows y :=
    lt_of_lt_of_le (lt_of_le_of_ne (htot r₀ hr₀) (Ne.symm hnz)) hm_ge
  have hmne : yearMaxOf f.rows y ≠ 0 := ne_of_gt hmpos
  have hgne : ((f.rows.filter fun r => r.year == y).map yearTotal) ≠ [] :=
    List.ne_nil_of_mem (List.mem_map_of_mem yearTotal hr₀g)
  obtain ⟨rstar, hrstar, hts⟩ :=
    List.mem_map.mp (seriesMax_mem _ hgne)
  rw [hfil, hidx]
  refine seriesMax_eq_of_mem _ 100 ?_ ?_
  · exact List.mem_map.mpr
      ⟨rstar, hrstar, yearIndexValue_leader _ rstar hmne hts⟩
  · intro x hx
    obtain ⟨r, -, rfl⟩ := List.mem_map.mp hx
    exact yearIndexValue_le_100 _ r

/-- Witness for C2: in the 2020 group of frameEx the maximum index is
100. -/
theorem per_year_leader_witness :
    seriesMax ((frameEx'.rows.filter fun r => r.year == "2020").map
      Row.transformationIndex) = 100 :=
  per_year_leader frameEx frameEx' calc_frameEx
    (by intro r hr; simp [frameEx] at hr
        rcases hr with h | h <;> simp [h, rowA, rowB])
    "2020" rowA rowA_mem rfl (by norm_num [yearTotal, rowA])

/-- C8 counterexample: the claim says the calculator does not mutate its
input in place, but line 50 assigns the temporary column 年度总词频数 on
the argument object, so after the call the argument differs from its
pre-call state. -/
theorem calculator_mutates_argument :
    calculate_arg_after frameEx ≠ frameEx := by
  simp [calculate_arg_after, wordFreqColsPresent, frameEx, allColsEx]

/-- C8 as amended: the returned frame has the same rows in the same order
with only 数字化转型综合指数 changed, carries no temporary column, and its
columns are those of the input plus the created index column; but the
argument object is mutated in place, gaining the temporary 年度总词频数
column. -/
theorem calculator_shape_and_arg (f f' : Frame)
    (h : calculate_annual_percentile_index f = .ok f') :
    f'.tempCol = none ∧ f'.cols = calcOutCols f ∧
      List.Forall₂ Row.eqExceptIdx f.rows f'.rows ∧
      calculate_arg_after f =
        { f with tempCol := some (f.rows.map yearTotal) } := by
  obtain ⟨hp, rfl⟩ := (calc_ok_iff f f').mp h
  refine ⟨rfl, rfl, ?_, ?_⟩
  · exact forall₂_self_map _ (eqExceptIdx_applyIndexRow f.rows) f.rows
  · unfold calculate_arg_after
    rw [if_pos hp]

/-- Witness for the amended C8 at frameEx. -/
theorem calculator_shape_and_arg_witness :
    frameEx'.tempCol = none ∧ frameEx'.cols = calcOutCols frameEx ∧
      List.Forall₂ Row.eqExceptIdx frameEx.rows frameEx'.rows ∧
      calculate_arg_after frameEx =
        { frameEx with tempCol := some (frameEx.rows.map yearTotal) } :=
  calculator_shape_and_arg frameEx frameEx' calc_frameEx

lemma zfillChars_of_digits (w : Nat) (cs : List Char)
    (hd : cs.all Char.isDigit = true) (hl : cs.length ≤ w) :
    (zfillChars w cs).length = w ∧
      (zfillChars w cs).all Char.isDigit = true := by
  by_cases h : w ≤ cs.length
  · unfold zfillChars
    rw [if_pos h]
    exact ⟨le_antisymm hl h, hd⟩
  · cases cs with
    | nil =>
        simp only [zfillChars, if_neg h]
        refine ⟨by simp, ?_⟩
        rw [List.all_eq_true]
        intro c hc
        rw [List.eq_of_mem_replicate hc]
        decide
    | cons c rest =>
        have hc : c.isDigit = true :=
          List.all_eq_true.mp hd c (List.mem_cons_self c rest)
        have hcd : ¬ (c = '+' ∨ c = '-') := by
          rintro (rfl | rfl) <;> exact absurd hc (by decide)
        simp only [zfillChars, if_neg h, if_neg hcd]
        constructor
        · rw [List.length_append, List.length_replicate]
          omega
        · rw [List.all_append, hd, Bool.and_true]
          rw [List.all_eq_true]
          intro x hx
          rw [List.eq_of_mem_replicate hx]
          decide

/-- C5 as amended: line 154 casts to string and left-pads with zeros to
width 6 but strips no trailing .0 artifact; when the stringified code is
made of at most 6 digits, the normalized code has exactly 6 characters,
all digits. -/
theorem stock_code_pad_digits (s : String)
    (hd : s.data.all Char.isDigit = true) (hl : s.length ≤ 6) :
    (fix_stock_code s).length = 6 ∧
      (fix_stock_code s).data.all Char.isDigit = true :=
  zfillChars_of_digits 6 s.data hd hl

/-- Witness for the amended C5 at the one-digit code 1. -/
theorem stock_code_pad_digits_witness :
    (fix_stock_code "1").length = 6 ∧
      (fix_stock_code "1").data.all Char.isDigit = true :=
  stock_code_pad_digits "1" (by decide) (by decide)

/-- A workbook whose 2020 sheet holds one row whose stock code cell
stringifies to 1.0 (the astype(str) rendering of the float 1.0). -/
def wb5 : List Sheet :=
  [⟨"2020", allColsEx,
    [⟨"1.0", some "A", some 3, some 10, some 0, some 0, some 0, some 0⟩]⟩]

/-- C5 counterexample: on wb5 the loader stores the stock code 0001.0,
which is not a string of digits, because no .0 stripping occurs before
zfill(6). -/
theorem stock_code_artifact :
    (load_full_data wb5).table.rows.map Row.stockCode =
        [Cell.str "0001.0"] ∧
      ("0001.0".data.all Char.isDigit) = false := by
  constructor
  · rfl
  · decide

/-- A workbook with one digit-named sheet that has identifying columns
but none of the five keyword frequency columns. -/
def wb6 : List Sheet :=
  [⟨"2020", ⟨true, true, false, false, false, false, false, false⟩,
    [⟨"1", some "A", none, none, none, none, none, none⟩]⟩]

/-- C6 counterexample: on wb6 the claim predicts a one-row table with a
zero index; the code instead raises KeyError at the selection
df[word_freq_cols], caught by load_full_data, which returns an empty
table with an error message. -/
theorem missing_freq_cols_fails :
    (load_full_data wb6).table.rows = [] ∧
      (load_full_data wb6).messages ≠ [] := by
  constructor
  · rfl
  · decide

/-- C6 as amended: when every keyword frequency column is absent from the
selected sheets, the selection at line 50 raises KeyError, the except at
line 164 catches it, and the load degrades to an empty table with an
error message (no all-zero-index table is produced). -/
theorem missing_freq_cols_empty_result (wb : List Sheet)
    (hne : wb.filter (fun s => isDigitName s.name) ≠ [])
    (hmiss : wordFreqColsPresent
      (unionCols (wb.filter fun s => isDigitName s.name)) = false) :
    (load_full_data wb).table = emptyFrame ∧
      (load_full_data wb).messages = [loadFailMsg keyErrorMsg] := by
  obtain ⟨a, as, hcase⟩ :
      ∃ a as, wb.filter (fun s => isDigitName s.name) = a :: as := by
    cases h : wb.filter (fun s => isDigitName s.name) with
    | nil => exact absurd h hne
    | cons a as => exact ⟨a, as, rfl⟩
  rw [hcase] at hmiss
  have herr : ∀ rows, calculate_annual_percentile_index
      ⟨unionCols (a :: as), none, rows⟩ = .error keyErrorMsg := by
    intro rows
    unfold calculate_annual_percentile_index
    rw [if_neg]
    rw [hmiss]
    exact Bool.false_ne_true
  simp [load_full_data, hcase, List.isEmpty_cons, herr]

/-- Witness for the amended C6 at wb6. -/
theorem missing_freq_cols_empty_result_witness :
    (load_full_data wb6).table = emptyFrame ∧
      (load_full_data wb6).messages = [loadFailMsg keyErrorMsg] :=
  missing_freq_cols_empty_result wb6 (by decide) (by decide)

/-- A well-formed 2020 sheet with all retained columns. -/
def sheetGood : Sheet :=
  ⟨"2020", allColsEx,
   [⟨"1", some "A", some 3, some 10, some 0, some 0, some 0, some 0⟩]⟩

/-- A 2021 sheet lacking both identifying columns (stock code and company
name) but carrying the keyword frequency columns. -/
def sheetNoId : Sheet :=
  ⟨"2021", ⟨false, false, false, true, true, true, true, true⟩,
   [⟨"", none, none, some 2, some 0, some 0, some 0, some 0⟩]⟩

/-- C7 counterexample: the claim predicts that the sheet without
identifying columns is dropped with a warning, leaving one row; the code
keeps its rows (line 151 only restricts columns, it never drops a sheet),
so the result has two rows, one per sheet, and no message is recorded. -/
theorem sheet_without_id_kept :
    (load_full_data [sheetGood, sheetNoId]).table.rows.length = 2 ∧
      (load_full_data [sheetGood, sheetNoId]).table.rows.map Row.year =
        ["2020", "2021"] ∧
      (load_full_data [sheetGood, sheetNoId]).messages = [] := by
  refine ⟨rfl, rfl, rfl⟩

/-- C7 as amended: no selected sheet is ever dropped and no warning is
recorded; the consolidated table contains the rows of every digit-named
sheet in order (rows of a sheet lacking identifying columns get the value
0 in those columns after concatenation and fillna). -/
theorem no_sheet_dropped (wb : List Sheet)
    (hall : ∀ s ∈ wb, isDigitName s.name = true) (hne : wb ≠ [])
    (hfreq : wordFreqColsPresent (unionCols wb) = true) :
    List.Forall₂ Row.eqExceptIdx ((wb.map processSheet).flatten)
        (load_full_data wb).table.rows ∧
      (load_full_data wb).messages = [] := by
  have hfil : wb.filter (fun s => isDigitName s.name) = wb :=
    List.filter_eq_self.mpr hall
  obtain ⟨a, as, hcase⟩ : ∃ a as, wb = a :: as := by
    cases wb with
    | nil => exact absurd rfl hne
    | cons a as => exact ⟨a, as, rfl⟩
  subst hcase
  have hok : calculate_annual_percentile_index
      ⟨unionCols (a :: as), none, ((a :: as).map processSheet).flatten⟩ =
        .ok ⟨calcOutCols ⟨unionCols (a :: as), none,
              ((a :: as).map processSheet).flatten⟩, none,
             calcRows (((a :: as).map processSheet).flatten)⟩ :=
    (calc_ok_iff _ _).mpr ⟨hfreq, rfl⟩
  have hload : load_full_data (a :: as) =
      ⟨⟨calcOutCols ⟨unionCols (a :: as), none,
          ((a :: as).map processSheet).flatten⟩, none,
        calcRows (((a :: as).map processSheet).flatten)⟩, []⟩ := by
    simp only [load_full_data, hfil, List.isEmpty_cons, Bool.false_eq_true,
      if_false, hok]
  rw [hload]
  exact ⟨forall₂_self_map _ (eqExceptIdx_applyIndexRow _) _, rfl⟩

/-- Witness for the amended C7 at the two-sheet workbook. -/
theorem no_sheet_dropped_witness :
    List.Forall₂ Row.eqExceptIdx
        (([sheetGood, sheetNoId].map processSheet).flatten)
        (load_full_data [sheetGood, sheetNoId]).table.rows ∧
      (load_full_data [sheetGood, sheetNoId]).messages = [] :=
  no_sheet_dropped [sheetGood, sheetNoId] (by decide) (by decide) (by decide)

/-- C9: the loader and calculator are deterministic functions of the
workbook contents: they read no ambient state (the clock is read only by
the report text downstream), so two loads of the same workbook, at any
two instants, return identical results row for row. -/
theorem load_deterministic (e₁ e₂ : Env) (wb : List Sheet) :
    load_full_data_env e₁ wb = load_full_data_env e₂ wb ∧
      (load_full_data_env e₁ wb).table.rows =
        (load_full_data wb).table.rows :=
  ⟨rfl, rfl⟩

/-- C10: the growth-rate division of line 95 is guarded: with fewer than
two available years the trend is the no-data text, and with a zero
first-year index the trend is the cannot-compute text; the computed trend
outcomes (up, down, flat) only arise when the first index is nonzero. -/
theorem report_trend_guard (d : List Row) :
    ((available_years d).length < 2 → reportTrend d = Trend.noData) ∧
    (2 ≤ (available_years d).length → firstIndexOf d = 0 →
      reportTrend d = Trend.zeroBase) ∧
    (firstIndexOf d = 0 → ∀ q : ℚ,
      reportTrend d ≠ Trend.up q ∧ reportTrend d ≠ Trend.down q ∧
        reportTrend d ≠ Trend.flat) := by
  by_cases h2 : 2 ≤ (available_years d).length
  · have hn2 : ¬ (available_years d).length < 2 := not_lt.mpr h2
    by_cases hz : firstIndexOf d = 0
    · have ht : reportTrend d = Trend.zeroBase := by
        simp [reportTrend, h2, hz]
      refine ⟨fun hlt => absurd hlt hn2, fun _ _ => ht, fun _ q => ?_⟩
      rw [ht]
      exact ⟨by simp, by simp, by simp⟩
    · exact ⟨fun hlt => absurd hlt hn2, fun _ h0 => absurd h0 hz,
        fun h0 => absurd h0 hz⟩
  · have ht : reportTrend d = Trend.noData := by
      simp [reportTrend, h2]
    refine ⟨fun _ => ht, fun hge => absurd hge h2, fun _ q => ?_⟩
    rw [ht]
    exact ⟨by simp, by simp, by simp⟩

/-- A two-year company history whose first year has index 0. -/
def rowT0 : Row := ⟨Cell.str "000001", Cell.str "A", "2020", 0, 0, 0, 0, 0, 0⟩

/-- The later year of the same company. -/
def rowT1 : Row := ⟨Cell.str "000001", Cell.str "A", "2021", 50, 2, 0, 0, 0, 0⟩

/-- Witness for C10: with a zero base year the report trend is the
cannot-compute outcome. -/
theorem report_trend_guard_witness :
    reportTrend [rowT0, rowT1] = Trend.zeroBase :=
  (report_trend_guard [rowT0, rowT1]).2.1 (by decide) (by decide)

end CompanyDigitalIndex
